import Mathlib

/-!
Shallow embedding of the `dsigm` package (files `src/dsigm/_core.py` and
`src/dsigm/_utils.py`) and proofs about its `Core` and `CoreCluster`
constructors, `Core.pdf`, and the `create_random_state` utility.

Python runtime conventions modelled here:
* Python values are an inductive type `PyVal`; Python floats are modelled as
  rationals (no float arithmetic is reachable in the verified paths).
* Raising an exception is `Except.error` of a `PyErr`; quote characters that
  CPython puts around names in its messages are elided.
* `np.asarray` is total (the numpy contemporary with this repository builds
  object arrays from ragged input instead of raising).
-/

/-- Python exception kinds raised by the embedded code. -/
inductive PyErr where
  | valueError (msg : String)
  | typeError (msg : String)
  | attributeError (msg : String)
  | nameError (msg : String)
  | indexError (msg : String)
deriving DecidableEq, Repr

/-- The Python types that can occur as `type(x)` of a value in this model.
`npIntegerType` stands for the abstract class `np.integer`. -/
inductive PyType where
  | noneType
  | intType
  | floatType
  | boolType
  | strType
  | listType
  | ndarrayType
  | coreType
  | clusterType
  | randomStateType
  | npIntegerType
deriving DecidableEq, Repr

/-- Python values.  `coreObj`, `clusterObj` and `randomState` are opaque
object references identified by a tag; `ndarray` wraps the nested value a
numpy array was built from. -/
inductive PyVal where
  | none
  | int (n : Int)
  | float (x : Rat)
  | bool (b : Bool)
  | str (s : String)
  | list (xs : List PyVal)
  | ndarray (v : PyVal)
  | coreObj (tag : Nat)
  | clusterObj (tag : Nat)
  | randomState (tag : Nat)

/-- `type(v)` for a value of this model. -/
def pyType : PyVal → PyType
  | PyVal.none => PyType.noneType
  | PyVal.int _ => PyType.intType
  | PyVal.float _ => PyType.floatType
  | PyVal.bool _ => PyType.boolType
  | PyVal.str _ => PyType.strType
  | PyVal.list _ => PyType.listType
  | PyVal.ndarray _ => PyType.ndarrayType
  | PyVal.coreObj _ => PyType.coreType
  | PyVal.clusterObj _ => PyType.clusterType
  | PyVal.randomState _ => PyType.randomStateType

/-- `type(v).__name__`, used in the cluster error message of
`Core._validate_init`. -/
def pyTypeName : PyType → String
  | PyType.noneType => "NoneType"
  | PyType.intType => "int"
  | PyType.floatType => "float"
  | PyType.boolType => "bool"
  | PyType.strType => "str"
  | PyType.listType => "list"
  | PyType.ndarrayType => "ndarray"
  | PyType.coreType => "Core"
  | PyType.clusterType => "CoreCluster"
  | PyType.randomStateType => "RandomState"
  | PyType.npIntegerType => "integer"

/-- `np.isscalar`: true for numbers and strings, false for `None`,
sequences, numpy arrays (0-d included) and general objects. -/
def np_isscalar : PyVal → Bool
  | PyVal.int _ => true
  | PyVal.float _ => true
  | PyVal.bool _ => true
  | PyVal.str _ => true
  | _ => false

/-- Strip an `ndarray` wrapper, leaving the nested data. -/
def stripNd : PyVal → PyVal
  | PyVal.ndarray v => v
  | v => v

/-- `np.asarray`: wrap a value as an array (idempotent on arrays). -/
def np_asarray (v : PyVal) : PyVal := PyVal.ndarray (stripNd v)

/-- An entry of the second argument of `isinstance`: either an actual
class, or a non-class value (such as `None`) placed where a class was
expected. -/
inductive ClassInfoItem where
  | cls (t : PyType)
  | notAClass (v : PyVal)

/-- Whether `isinstance(v, t)` holds for an actual class `t`
(`bool` is a subclass of `int` in Python). -/
def typeMatches (v : PyVal) (t : PyType) : Bool :=
  match v, t with
  | PyVal.bool _, PyType.intType => true
  | _, _ => pyType v == t

/-- `isinstance(v, (i₁, i₂, ...))`: CPython walks the tuple left to right,
returning as soon as a class matches, and raises `TypeError` at the first
entry that is not a class. -/
def pyIsinst (v : PyVal) : List ClassInfoItem → Except PyErr Bool
  | [] => Except.ok false
  | ClassInfoItem.cls t :: rest =>
    if typeMatches v t then Except.ok true else pyIsinst v rest
  | ClassInfoItem.notAClass _ :: _ =>
    Except.error (PyErr.typeError "isinstance() arg 2 must be a type or tuple of types")

/-- Trailing dimension of the nested data of an array, following numpy
shape inference down the first element: `shape[-1]` of `np.asarray(v)`.
`Option.none` for 0-d data (a scalar), where `shape` is the empty tuple. -/
def trailDimCore : PyVal → Option Nat
  | PyVal.list [] => some 0
  | PyVal.list (x :: rest) =>
    match x with
    | PyVal.list ys => trailDimCore (PyVal.list ys)
    | _ => some (rest.length + 1)
  | _ => Option.none

/-- `a.shape[-1]` for an array value: `IndexError` on a 0-d array whose
shape tuple is empty. -/
def shape_last : PyVal → Except PyErr Nat
  | PyVal.ndarray v =>
    match trailDimCore v with
    | some n => Except.ok n
    | Option.none => Except.error (PyErr.indexError "tuple index out of range")
  | _ => Except.error (PyErr.attributeError "object has no attribute shape")

/-- The attribute record of a `Core` instance, as set by `Core.__init__`
before validation runs: `self.dim = -1`, `self.mu = np.asarray(mu)`,
`self.sigma = np.asarray(sigma)`, `self.delta = delta`,
`self.cluster = cluster`. -/
structure CoreState where
  dim : Int
  mu : PyVal
  sigma : PyVal
  delta : PyVal
  cluster : PyVal

/-- `Core._validate_init` (src/dsigm/_core.py lines 39-54), translated
check by check in source order.  The `isinstance(self.cluster,
(None, CoreCluster))` test places the value `None` in the class tuple,
which `pyIsinst` turns into the `TypeError` CPython raises there. -/
def Core_validate_init (self : CoreState) : Except PyErr CoreState :=
  if np_isscalar self.mu then
    Except.error (PyErr.valueError "Invalid argument provided for mu. Must be a vector")
  else if np_isscalar self.sigma then
    Except.error (PyErr.valueError "Invalid argument provided for sigma. Must be a vector")
  else if np_isscalar self.delta then
    Except.error (PyErr.valueError "Invalid argument provided for delta. Must be a vector")
  else
    match pyIsinst self.cluster
        [ClassInfoItem.notAClass PyVal.none, ClassInfoItem.cls PyType.clusterType] with
    | Except.error e => Except.error e
    | Except.ok isCluster =>
      if !isCluster then
        Except.error (PyErr.valueError
          ("Invalid argument provided for cluster. Must be None or CoreCluster. Found "
            ++ pyTypeName (pyType self.cluster)))
      else
        match shape_last self.mu with
        | Except.error e => Except.error e
        | Except.ok m =>
          match shape_last self.sigma with
          | Except.error e => Except.error e
          | Except.ok s =>
            if m == s then Except.ok { self with dim := Int.ofNat m }
            else Except.error (PyErr.valueError "Mismatch in dimensions between mu and sigma")

/-- `Core.__init__(mu, sigma, delta, cluster)`: store the attributes, then
run `_validate_init`.  `Except.ok` is a construction that returned
normally; `Except.error` is a raised exception. -/
def Core_init (mu sigma delta cluster : PyVal) : Except PyErr CoreState :=
  Core_validate_init
    { dim := -1, mu := np_asarray mu, sigma := np_asarray sigma,
      delta := delta, cluster := cluster }

/-- Default argument `mu=[0]` of `Core.__init__`. -/
def Core_default_mu : PyVal := PyVal.list [PyVal.int 0]

/-- Default argument `sigma=[1]` of `Core.__init__`. -/
def Core_default_sigma : PyVal := PyVal.list [PyVal.int 1]

/-- Default argument `delta=1` of `Core.__init__` (the docstring documents
`default=[1]`, but the def line reads `delta=1`). -/
def Core_default_delta : PyVal := PyVal.int 1

/-- Default argument `cluster=None` of `Core.__init__`. -/
def Core_default_cluster : PyVal := PyVal.none

/-- `format_array` (src/dsigm/_utils.py lines 6-24): the body is the single
statement `pass`, so every call returns `None` despite the docstring. -/
def format_array (_array : PyVal) : PyVal := PyVal.none

/-- `Core.pdf(data)` (src/dsigm/_core.py lines 56-72): format the data,
re-validate, then delegate to `scipy.stats.multivariate_normal.pdf`.  The
SciPy routine is an external collaborator, so `pdf` is parametrised over
it; no theorem depends on its behaviour because the call is unreachable. -/
def Core_pdf (mvnPdf : PyVal → PyVal → PyVal → Except PyErr PyVal)
    (self : CoreState) (data : PyVal) : Except PyErr PyVal :=
  let d := format_array data
  match Core_validate_init self with
  | Except.error e => Except.error e
  | Except.ok self₂ => mvnPdf d self₂.mu self₂.sigma

-- CoreCluster -----------------------------------------------------------

/-- Iterating a numpy array (`for item in a`): a 1-d-or-deeper array yields
its top-level items, a 0-d array raises `TypeError`. -/
def ndarrayIter : PyVal → Except PyErr (List PyVal)
  | PyVal.ndarray (PyVal.list xs) => Except.ok xs
  | PyVal.ndarray _ => Except.error (PyErr.typeError "iteration over a 0-d array")
  | _ => Except.error (PyErr.typeError "object is not iterable")

/-- `set([type(item) for item in items])`, represented as the list of
distinct types (only its size and membership are consulted). -/
def typeSet (items : List PyVal) : List PyType :=
  items.foldl (fun acc it => if pyType it ∈ acc then acc else pyType it :: acc) []

/-- The attribute record of a `CoreCluster` instance: a name-to-value map,
because the validator reads an attribute name (`parents`) that the
constructor never sets (it sets `parent`). -/
structure ClusterState where
  attrs : List (String × PyVal)

/-- Python attribute lookup on a `CoreCluster` instance: `AttributeError`
when the name was never assigned. -/
def clusterGetattr (self : ClusterState) (name : String) : Except PyErr PyVal :=
  match self.attrs.lookup name with
  | some v => Except.ok v
  | Option.none => Except.error
      (PyErr.attributeError ("CoreCluster object has no attribute " ++ name))

/-- The attribute assignments of `CoreCluster.__init__`
(src/dsigm/_core.py lines 90-93): note line 92 stores under the name
`parent` while `_validate_init` will read `parents`. -/
def CoreCluster_state (cores parents children : PyVal) : ClusterState :=
  { attrs := [("cores", np_asarray cores),
              ("parent", np_asarray parents),
              ("children", np_asarray children)] }

/-- `CoreCluster._validate_init` (src/dsigm/_core.py lines 96-116),
translated check by check in source order. -/
def CoreCluster_validate_init (self : ClusterState) : Except PyErr Unit :=
  match clusterGetattr self "cores" with
  | Except.error e => Except.error e
  | Except.ok cores =>
    if np_isscalar cores then
      Except.error (PyErr.valueError "Invalid argument provided for cores. Must be a list of Cores")
    else
      match ndarrayIter cores with
      | Except.error e => Except.error e
      | Except.ok items =>
        let core_types := typeSet items
        if core_types.length ≠ 1 ∨ PyType.coreType ∉ core_types then
          Except.error (PyErr.valueError "Invalid argument provided for cores. Must be a list of Cores")
        else
          match clusterGetattr self "parents" with
          | Except.error e => Except.error e
          | Except.ok parents =>
            if np_isscalar parents then
              Except.error (PyErr.valueError "Invalid argument provided for parents. Must be a list of CoreClusters")
            else
              match ndarrayIter parents with
              | Except.error e => Except.error e
              | Except.ok pitems =>
                let parent_types := typeSet pitems
                if parent_types.length ≠ 1 ∨ PyType.clusterType ∉ parent_types then
                  Except.error (PyErr.valueError "Invalid argument provided for parents. Must be a list of CoreClusters")
                else
                  match clusterGetattr self "children" with
                  | Except.error e => Except.error e
                  | Except.ok children =>
                    if np_isscalar children then
                      Except.error (PyErr.valueError "Invalid argument provided for children. Must be a list of CoreClusters")
                    else
                      match ndarrayIter children with
                      | Except.error e => Except.error e
                      | Except.ok citems =>
                        let children_types := typeSet citems
                        if children_types.length ≠ 1 ∨ PyType.clusterType ∉ children_types then
                          Except.error (PyErr.valueError "Invalid argument provided for children. Must be a list of CoreClusters")
                        else
                          Except.ok ()

/-- `CoreCluster.__init__(cores, parents, children)`: store the attributes,
then run `_validate_init`. -/
def CoreCluster_init (cores parents children : PyVal) : Except PyErr ClusterState :=
  match CoreCluster_validate_init (CoreCluster_state cores parents children) with
  | Except.error e => Except.error e
  | Except.ok _ => Except.ok (CoreCluster_state cores parents children)

-- create_random_state ---------------------------------------------------

/-- The observable surface of the numpy module that
`create_random_state` would use if the name `np` resolved:
`np.random.mtrand._rand` and the `np.random.RandomState` constructor. -/
structure NumpyModule where
  mtrand_rand : PyVal
  mkRandomState : PyVal → PyVal

/-- The binding of the name `np` in the namespace of
`src/dsigm/_utils.py`: the module never imports numpy, so the name is
unbound. -/
def utils_np : Option NumpyModule := Option.none

/-- Evaluating the name `np` inside `src/dsigm/_utils.py`: `NameError`
when the module-level binding is absent. -/
def resolve_np : Except PyErr NumpyModule :=
  match utils_np with
  | some m => Except.ok m
  | Option.none => Except.error (PyErr.nameError "name np is not defined")

/-- `create_random_state` (src/dsigm/_utils.py lines 26-50).  Every branch
evaluates the name `np` — the `None` branch in `np.random.mtrand._rand`,
the others inside the tuple `(int, np.integer)` of the first
`isinstance` — before producing its documented result. -/
def create_random_state (seed : PyVal) : Except PyErr PyVal :=
  match seed with
  | PyVal.none =>
    match resolve_np with
    | Except.error e => Except.error e
    | Except.ok np => Except.ok np.mtrand_rand
  | _ =>
    match resolve_np with
    | Except.error e => Except.error e
    | Except.ok np =>
      match pyIsinst seed [ClassInfoItem.cls PyType.intType, ClassInfoItem.cls PyType.npIntegerType] with
      | Except.error e => Except.error e
      | Except.ok true => Except.ok (np.mkRandomState seed)
      | Except.ok false =>
        match pyIsinst seed [ClassInfoItem.cls PyType.randomStateType] with
        | Except.error e => Except.error e
        | Except.ok true => Except.ok seed
        | Except.ok false =>
          Except.error (PyErr.valueError "Seed must be None, an int, or a Random State")

-- Helper lemmas ---------------------------------------------------------

/-- The result of `np.asarray` is never a numpy scalar. -/
theorem np_isscalar_asarray (v : PyVal) : np_isscalar (np_asarray v) = false := rfl

/-- An `isinstance` whose class tuple starts with the value `None` raises
`TypeError` whatever the tested value is. -/
theorem pyIsinst_none_first (v : PyVal) (rest : List ClassInfoItem) :
    pyIsinst v (ClassInfoItem.notAClass PyVal.none :: rest)
      = Except.error (PyErr.typeError "isinstance() arg 2 must be a type or tuple of types") := rfl

/-- Closed form of `Core.__init__`: the scalar tests on `self.mu` and
`self.sigma` see the results of `np.asarray` and never fire, so every call
either raises the `delta` `ValueError` (when `delta` is a scalar) or the
`TypeError` of the `isinstance` test on `cluster`. -/
theorem Core_init_eq (mu sigma delta cluster : PyVal) :
    Core_init mu sigma delta cluster =
      if np_isscalar delta then
        Except.error (PyErr.valueError "Invalid argument provided for delta. Must be a vector")
      else
        Except.error (PyErr.typeError "isinstance() arg 2 must be a type or tuple of types") := by
  by_cases h : np_isscalar delta <;>
    simp [Core_init, Core_validate_init, np_isscalar_asarray, h, pyIsinst_none_first]

/-- `Core._validate_init` raises on every attribute record: even when all
three scalar tests pass, the `isinstance` test on `cluster` raises. -/
theorem Core_validate_init_always_raises (self : CoreState) :
    ∃ e, Core_validate_init self = Except.error e := by
  unfold Core_validate_init
  split_ifs <;> simp [pyIsinst_none_first]

-- Claim theorems --------------------------------------------------------

/-- C2: every call to `Core.__init__` raises — a `ValueError` from a scalar
check (only the `delta` check can fire, because `mu` and `sigma` are tested
after `np.asarray`) or the `TypeError` raised by the `isinstance` test
against the tuple `(None, CoreCluster)`, in which `None` is not a type —
so no `Core` object is ever constructed successfully. -/
theorem core_construction_always_raises (mu sigma delta cluster : PyVal) :
    (Core_init mu sigma delta cluster
        = Except.error (PyErr.valueError "Invalid argument provided for delta. Must be a vector")
      ∨ Core_init mu sigma delta cluster
        = Except.error (PyErr.typeError "isinstance() arg 2 must be a type or tuple of types"))
    ∧ ∀ st, Core_init mu sigma delta cluster ≠ Except.ok st := by
  rw [Core_init_eq]
  by_cases h : np_isscalar delta <;> simp [h]

/-- C1: with a valid mean and covariance of equal trailing dimension
(`mu=[0,0]`, `sigma=[1,1]`, sequence weight, `cluster=None`), construction
does not succeed with `dim = 2` as specified: it raises `TypeError` at the
`isinstance(self.cluster, (None, CoreCluster))` check. -/
theorem core_equal_dims_construction_raises :
    Core_init (PyVal.list [PyVal.int 0, PyVal.int 0])
        (PyVal.list [PyVal.int 1, PyVal.int 1]) (PyVal.list [PyVal.int 1]) PyVal.none
      = Except.error (PyErr.typeError "isinstance() arg 2 must be a type or tuple of types") := rfl

/-- C3: construction with all default arguments raises `ValueError` for
`delta`, because the actual default is the bare scalar `1` (the docstring
documents `[1]`), instead of producing a 1-dimensional standard Gaussian. -/
theorem core_default_construction_raises :
    Core_init Core_default_mu Core_default_sigma Core_default_delta Core_default_cluster
      = Except.error (PyErr.valueError "Invalid argument provided for delta. Must be a vector") := rfl

/-- C4: with mean and covariance of unequal trailing dimension
(`mu=[0,0]`, `sigma=[1]`), construction raises the `isinstance` `TypeError`
on `cluster`, not the documented dimension-mismatch `ValueError` — the
dimension comparison on line 51 is never reached. -/
theorem core_unequal_dims_raises_typeerror_not_mismatch :
    Core_init (PyVal.list [PyVal.int 0, PyVal.int 0]) (PyVal.list [PyVal.int 1])
        (PyVal.list [PyVal.int 1]) PyVal.none
      = Except.error (PyErr.typeError "isinstance() arg 2 must be a type or tuple of types")
    ∧ Core_init (PyVal.list [PyVal.int 0, PyVal.int 0]) (PyVal.list [PyVal.int 1])
        (PyVal.list [PyVal.int 1]) PyVal.none
      ≠ Except.error (PyErr.valueError "Mismatch in dimensions between mu and sigma") := by
  exact ⟨rfl, by simp [Core_init_eq, np_isscalar]⟩

/-- C8: whenever `delta` is a bare scalar (`np.isscalar` true),
`Core.__init__` raises the `delta` `ValueError`, whatever the other
arguments are. -/
theorem core_scalar_delta_invalid_parameter (mu sigma cluster delta : PyVal)
    (h : np_isscalar delta = true) :
    Core_init mu sigma delta cluster
      = Except.error (PyErr.valueError "Invalid argument provided for delta. Must be a vector") := by
  simp [Core_init_eq, h]

/-- Witness for C8 at `delta = 1` (the default), `mu=[0]`, `sigma=[1]`,
`cluster=None`. -/
theorem core_scalar_delta_invalid_parameter_witness :
    np_isscalar (PyVal.int 1) = true ∧
    Core_init (PyVal.list [PyVal.int 0]) (PyVal.list [PyVal.int 1]) (PyVal.int 1) PyVal.none
      = Except.error (PyErr.valueError "Invalid argument provided for delta. Must be a vector") :=
  ⟨rfl, core_scalar_delta_invalid_parameter _ _ _ _ rfl⟩

/-- C5: `Core.pdf` never returns a batch of density values: whatever the
external SciPy routine would do, for every component state and every data
batch the internal re-validation raises (and `format_array`, whose body is
`pass`, has already turned the data into `None`). -/
theorem core_pdf_never_returns_densities
    (mvnPdf : PyVal → PyVal → PyVal → Except PyErr PyVal)
    (self : CoreState) (data : PyVal) :
    ∃ e, Core_pdf mvnPdf self data = Except.error e := by
  obtain ⟨e, he⟩ := Core_validate_init_always_raises self
  exact ⟨e, by simp [Core_pdf, he]⟩

/-- C6: `CoreCluster` construction with a non-empty homogeneous collection
of `Core` instances passes the `cores` check but then raises
`AttributeError`: `__init__` stored the attribute `parent` while the
validator reads `parents` — membership is never established. -/
theorem cluster_nonempty_cores_attribute_error (parents children : PyVal) :
    CoreCluster_init (PyVal.list [PyVal.coreObj 0]) parents children
      = Except.error (PyErr.attributeError "CoreCluster object has no attribute parents") := rfl

/-- C7: `CoreCluster` construction with an empty `cores` collection raises
the `cores` `ValueError`, because the set of element types of an empty
collection has zero members rather than exactly one, whatever `parents`
and `children` are. -/
theorem cluster_empty_cores_invalid_parameter (parents children : PyVal) :
    CoreCluster_init (PyVal.list []) parents children
      = Except.error (PyErr.valueError "Invalid argument provided for cores. Must be a list of Cores") := rfl

/-- C9: `create_random_state` applied to an existing generator handle does
not return it unchanged: it raises `NameError` while evaluating the unbound
name `np` in the tuple `(int, np.integer)` of the first `isinstance`. -/
theorem create_random_state_generator_not_returned :
    create_random_state (PyVal.randomState 7)
      = Except.error (PyErr.nameError "name np is not defined") := rfl

/-- C10: for every seed argument — `None`, an integer, a generator handle,
or anything else — `create_random_state` raises `NameError`, because
`src/dsigm/_utils.py` never imports numpy and every branch evaluates the
unbound name `np` before returning. -/
theorem create_random_state_always_nameerror (seed : PyVal) :
    create_random_state seed = Except.error (PyErr.nameError "name np is not defined") := by
  cases seed <;> rfl
